import Mathlib

set_option maxRecDepth 4000

/-!
# Verification of the VishNet front end (src/streamlit_app.py)

Shallow embedding, in Lean 4, of the pure logic of the Streamlit front end:
phone validation, timestamp formatting, request-payload assembly, error-message
extraction, call-list aggregation and sorting, report rendering, and the
session/cache state machine around the backend URL.  Machine-level Python
behaviour (string truthiness, the value-level `or` operator, `dict.get`
defaults, exception control flow) is translated explicitly; fallible code is
modelled with `Except`.
-/

namespace VishNet

/-! ## Phone validation (`validate_phone`, src/streamlit_app.py lines 50-59) -/

/-- Characters matched by the regex class `[1-9]`: ASCII codes 49-57
(the characters '1' through '9'). -/
def isNonZeroDigit (c : Char) : Bool :=
  49 ≤ c.toNat && c.toNat ≤ 57

/-- Characters matched by the regex class `\d`, restricted to ASCII input
(the application's phone field): ASCII codes 48-57, i.e. '0' through '9'. -/
def isDigitChar (c : Char) : Bool :=
  48 ≤ c.toNat && c.toNat ≤ 57

/-- Matcher for the suffix `[1-9]\d{7,14}` of the phone pattern anchored at
the end of the string: one nonzero digit followed by 7 to 14 digits,
consuming the whole remaining input. -/
def phoneRegexCore (cs : List Char) : Bool :=
  match cs with
  | [] => false
  | c :: rest =>
      isNonZeroDigit c && rest.all isDigitChar &&
        decide (7 ≤ rest.length) && decide (rest.length ≤ 14)

/-- Full match of the pattern `\+?[1-9]\d{7,14}` against the whole string,
translated from the call `re.fullmatch` in `validate_phone`
(src/streamlit_app.py line 57).  The pattern is deterministic: a leading '+'
can only be consumed by the optional `\+?` because `[1-9]` never matches '+'. -/
def phoneRegexFullmatch (cs : List Char) : Bool :=
  match cs with
  | [] => false
  | c :: _ => if c = '+' then phoneRegexCore cs.tail else phoneRegexCore cs

/-- Embedding of `validate_phone` (src/streamlit_app.py lines 50-59).
Python's `if not ph` on a string is the emptiness test. -/
def validate_phone (ph : String) : Bool × String :=
  if ph = "" then (false, "Phone number is required.")
  else if !phoneRegexFullmatch ph.data then
    (false, "Enter a valid E.164 phone (e.g., +15551234567).")
  else (true, "")

/-- The specification's wording of the accepted phone language: an optional
leading '+', then a block of 8 to 15 digits whose first digit is 1-9. -/
def SpecE164 (s : String) : Prop :=
  ∃ digits : List Char,
    (s.data = digits ∨ s.data = '+' :: digits) ∧
    8 ≤ digits.length ∧ digits.length ≤ 15 ∧
    (∀ c ∈ digits, isDigitChar c = true) ∧
    ∃ d ds, digits = d :: ds ∧ isNonZeroDigit d = true

theorem isDigitChar_of_isNonZeroDigit {c : Char} (h : isNonZeroDigit c = true) :
    isDigitChar c = true := by
  simp only [isNonZeroDigit, isDigitChar, Bool.and_eq_true, decide_eq_true_eq] at *
  omega

theorem ne_plus_of_isNonZeroDigit {c : Char} (h : isNonZeroDigit c = true) :
    c ≠ '+' := by
  intro hc
  subst hc
  simp [isNonZeroDigit] at h

theorem phoneRegexCore_iff (l : List Char) :
    phoneRegexCore l = true ↔
      ∃ d ds, l = d :: ds ∧ isNonZeroDigit d = true ∧
        (∀ c ∈ ds, isDigitChar c = true) ∧ 7 ≤ ds.length ∧ ds.length ≤ 14 := by
  cases l with
  | nil => simp [phoneRegexCore]
  | cons c rest =>
      simp only [phoneRegexCore, Bool.and_eq_true, decide_eq_true_eq,
        List.all_eq_true]
      constructor
      · rintro ⟨⟨⟨h1, h2⟩, h3⟩, h4⟩
        exact ⟨c, rest, rfl, h1, h2, h3, h4⟩
      · rintro ⟨d, ds, heq, h1, h2, h3, h4⟩
        cases heq
        exact ⟨⟨⟨h1, h2⟩, h3⟩, h4⟩

theorem phoneRegexFullmatch_iff (s : String) :
    phoneRegexFullmatch s.data = true ↔ SpecE164 s := by
  constructor
  · intro h
    cases hd : s.data with
    | nil => rw [hd] at h; simp [phoneRegexFullmatch] at h
    | cons c rest =>
        rw [hd] at h
        by_cases hc : c = '+'
        · subst hc
          simp only [phoneRegexFullmatch, if_pos rfl, List.tail_cons] at h
          obtain ⟨d, ds, heq, h1, h2, h3, h4⟩ := (phoneRegexCore_iff rest).mp h
          refine ⟨rest, Or.inr (by rw [hd]), ?_, ?_, ?_, d, ds, heq, h1⟩
          · rw [heq]; simpa using h3
          · rw [heq]; simpa using h4
          · intro x hx
            rw [heq] at hx
            rcases List.mem_cons.mp hx with hx | hx
            · exact hx ▸ isDigitChar_of_isNonZeroDigit h1
            · exact h2 x hx
        · simp only [phoneRegexFullmatch, if_neg hc] at h
          obtain ⟨d, ds, heq, h1, h2, h3, h4⟩ := (phoneRegexCore_iff (c :: rest)).mp h
          refine ⟨c :: rest, Or.inl hd, ?_, ?_, ?_, d, ds, heq, h1⟩
          · rw [heq]; simpa using h3
          · rw [heq]; simpa using h4
          · intro x hx
            rw [heq] at hx
            rcases List.mem_cons.mp hx with hx | hx
            · exact hx ▸ isDigitChar_of_isNonZeroDigit h1
            · exact h2 x hx
  · rintro ⟨digits, hdec, hlen8, hlen15, hall, d, ds, hds, hd1⟩
    subst hds
    rcases hdec with hdec | hdec
    · have hdp : d ≠ '+' := ne_plus_of_isNonZeroDigit hd1
      rw [hdec]
      simp only [phoneRegexFullmatch, if_neg hdp]
      refine (phoneRegexCore_iff _).mpr ⟨d, ds, rfl, hd1, ?_, ?_, ?_⟩
      · intro x hx; exact hall x (List.mem_cons_of_mem d hx)
      · simpa using hlen8
      · simpa using hlen15
    · rw [hdec]
      simp only [phoneRegexFullmatch, if_pos rfl, List.tail_cons]
      refine (phoneRegexCore_iff _).mpr ⟨d, ds, rfl, hd1, ?_, ?_, ?_⟩
      · intro x hx; exact hall x (List.mem_cons_of_mem d hx)
      · simpa using hlen8
      · simpa using hlen15

/-- C2: every string in the language of `^\+?[1-9]\d{7,14}$` (stated in the
spec's words: optional leading '+', first digit 1-9, total 8-15 digits)
passes `validate_phone` with an empty message; the empty string fails with
"Phone number is required."; every other non-matching string fails with the
E.164 example message. -/
theorem validate_phone_correct (s : String) :
    (SpecE164 s → validate_phone s = (true, "")) ∧
    (¬SpecE164 s → s = "" → validate_phone s = (false, "Phone number is required.")) ∧
    (¬SpecE164 s → s ≠ "" →
      validate_phone s = (false, "Enter a valid E.164 phone (e.g., +15551234567).")) := by
  refine ⟨?_, ?_, ?_⟩
  · intro hspec
    have hm : phoneRegexFullmatch s.data = true := (phoneRegexFullmatch_iff s).mpr hspec
    have hne : s ≠ "" := by
      intro he
      subst he
      simp [phoneRegexFullmatch] at hm
    simp [validate_phone, hne, hm]
  · intro _ he
    simp [validate_phone, he]
  · intro hspec hne
    have hm : phoneRegexFullmatch s.data = false := by
      rcases hb : phoneRegexFullmatch s.data with _ | _
      · rfl
      · exact absurd ((phoneRegexFullmatch_iff s).mp hb) hspec
    simp [validate_phone, hne, hm]

/-- Witness for C2: the spec's own example "+15551234567" is in the spec
language and is accepted, and the spec's rejection example "5551234" (seven
digits) is rejected with the E.164 message. -/
theorem validate_phone_correct_witness :
    validate_phone "+15551234567" = (true, "") ∧
    validate_phone "5551234" = (false, "Enter a valid E.164 phone (e.g., +15551234567).") := by
  constructor
  · exact (validate_phone_correct "+15551234567").1
      ⟨['1', '5', '5', '5', '1', '2', '3', '4', '5', '6', '7'],
        Or.inr rfl, by decide, by decide, by decide,
        '1', ['5', '5', '5', '1', '2', '3', '4', '5', '6', '7'], rfl, by decide⟩
  · refine (validate_phone_correct "5551234").2.2 (fun hspec => ?_) (by decide)
    have hm := (phoneRegexFullmatch_iff "5551234").mpr hspec
    revert hm
    decide

/-! ## Report rendering (report_tab, src/streamlit_app.py lines 445-455) -/

/-- What the report tab renders for the report field. -/
inductive ReportView where
  | content (md : String)
  | pending
deriving DecidableEq

/-- The backend's sentinel text for a report that does not exist yet. -/
def SENTINEL_REPORT : String := "Report not found for the given CallSid"

/-- Embedding of the report-tab rendering decision (lines 451-455):
`report_content = report_data.get("report", "")`, then markdown is rendered
only when the content is truthy (non-empty) and differs from the sentinel;
otherwise the "Report not available yet" warning is shown.  `reportField`
is the `report` entry of the response data (`none` = key absent). -/
def render_report (reportField : Option String) : ReportView :=
  if reportField.getD "" ≠ "" ∧ reportField.getD "" ≠ SENTINEL_REPORT then
    ReportView.content (reportField.getD "")
  else ReportView.pending

/-- C5: a response whose report text is the sentinel (or empty, or absent)
renders as the pending state, and rendered report content is never the
sentinel text (nor empty). -/
theorem render_report_sentinel (f : Option String) :
    render_report (some SENTINEL_REPORT) = ReportView.pending ∧
    render_report (some "") = ReportView.pending ∧
    render_report none = ReportView.pending ∧
    (∀ s, render_report f = ReportView.content s →
      s ≠ SENTINEL_REPORT ∧ s ≠ "") := by
  refine ⟨by decide, by decide, by decide, ?_⟩
  intro s h
  unfold render_report at h
  split at h
  · rename_i hcond
    injection h with h
    subst h
    exact ⟨hcond.2, hcond.1⟩
  · cases h

/-- Witness for C5: an ordinary report body is rendered as content and that
content is not the sentinel. -/
theorem render_report_sentinel_witness :
    render_report (some "## Findings") = ReportView.content "## Findings" ∧
    "## Findings" ≠ SENTINEL_REPORT :=
  ⟨by decide, ((render_report_sentinel (some "## Findings")).2.2.2
      "## Findings" (by decide)).1⟩

/-! ## Error message extraction in `place_call` (lines 101-120) -/

/-- The three JSON fields `place_call` inspects on an error response.
A field is `none` when the key is absent (or JSON `null`). -/
structure ErrBody where
  message : Option String
  error : Option String
  detail : Option String
deriving DecidableEq

/-- Python truthiness of an optional string: `None` and `""` are falsy. -/
def truthyStr : Option String → Bool
  | some s => s ≠ ""
  | none => false

/-- Python's value-level `or` on the values read by `dict.get`: the left
operand if truthy, otherwise the right operand. -/
def pyOrStr (a b : Option String) : Option String :=
  if truthyStr a then a else b

/-- The value of the Python variable `message` in `place_call` (lines
109-115): `content.get("message") or content.get("error") or
content.get("detail")` when the body is a JSON dict, `None` otherwise. -/
def raisedMessage (body : Option ErrBody) : Option String :=
  match body with
  | some c => pyOrStr (pyOrStr c.message c.error) c.detail
  | none => none

/-- Message of the `RuntimeError` raised by `place_call` on HTTP status
≥ 400 (line 116): `message or f"Server error: HTTP status"`.  `body = none`
models a response body that is not a JSON object (parse failure or
non-dict JSON). -/
def place_call_error_message (status : Nat) (body : Option ErrBody) : String :=
  match raisedMessage body with
  | some s => if s = "" then "Server error: HTTP " ++ toString status else s
  | none => "Server error: HTTP " ++ toString status

theorem pyOrStr_of_truthy {a : Option String} (b : Option String)
    (h : truthyStr a = true) : pyOrStr a b = a := by
  simp [pyOrStr, h]

theorem pyOrStr_of_falsy {a : Option String} (b : Option String)
    (h : truthyStr a = false) : pyOrStr a b = b := by
  simp [pyOrStr, h]

theorem truthyStr_some_of_ne {m : String} (h : m ≠ "") :
    truthyStr (some m) = true := by
  simp [truthyStr, h]

/-- The claim's wording: the message is the value of the first *present*
field among `message`, `error`, `detail`, with the fallback only when none
of the three keys is present. -/
def claimedErrorMessage (status : Nat) (body : Option ErrBody) : String :=
  match body with
  | some c =>
      match c.message with
      | some m => m
      | none =>
          match c.error with
          | some m => m
          | none =>
              match c.detail with
              | some m => m
              | none => "Server error: HTTP " ++ toString status
  | none => "Server error: HTTP " ++ toString status

/-- Counterexample to C6 as stated: on a 400 response with body
`{"message": "", "error": "boom"}` the `message` key is present, so the
claim requires the raised message to be its value `""`; the code instead
skips the falsy value and raises `"boom"`. -/
theorem place_call_error_message_counterexample :
    place_call_error_message 400 (some ⟨some "", some "boom", none⟩) = "boom" ∧
    claimedErrorMessage 400 (some ⟨some "", some "boom", none⟩) = "" ∧
    decide (place_call_error_message 400 (some ⟨some "", some "boom", none⟩) =
      claimedErrorMessage 400 (some ⟨some "", some "boom", none⟩)) = false := by
  refine ⟨rfl, rfl, ?_⟩
  decide

/-- C6 (amended): the raised message is the first field among `message`,
`error`, `detail` that is present *with a non-empty value*, in that priority
order; when no field has a non-empty value (or the body is not a JSON
object), the message is "Server error: HTTP status". -/
theorem place_call_error_message_priority (st : Nat) (c : ErrBody) :
    (∀ m, c.message = some m → m ≠ "" → place_call_error_message st (some c) = m) ∧
    (truthyStr c.message = false →
      ∀ m, c.error = some m → m ≠ "" → place_call_error_message st (some c) = m) ∧
    (truthyStr c.message = false → truthyStr c.error = false →
      ∀ m, c.detail = some m → m ≠ "" → place_call_error_message st (some c) = m) ∧
    (truthyStr c.message = false → truthyStr c.error = false →
      truthyStr c.detail = false →
      place_call_error_message st (some c) = "Server error: HTTP " ++ toString st) ∧
    place_call_error_message st none = "Server error: HTTP " ++ toString st := by
  refine ⟨?_, ?_, ?_, ?_, rfl⟩
  · intro m hm hne
    simp only [place_call_error_message, raisedMessage]
    rw [hm, pyOrStr_of_truthy c.error (truthyStr_some_of_ne hne),
      pyOrStr_of_truthy c.detail (truthyStr_some_of_ne hne)]
    simp [hne]
  · intro hmsg m hm hne
    simp only [place_call_error_message, raisedMessage]
    rw [pyOrStr_of_falsy c.error hmsg, hm,
      pyOrStr_of_truthy c.detail (truthyStr_some_of_ne hne)]
    simp [hne]
  · intro hmsg herr m hm hne
    simp only [place_call_error_message, raisedMessage]
    rw [pyOrStr_of_falsy c.error hmsg, pyOrStr_of_falsy c.detail herr, hm]
    simp [hne]
  · intro hmsg herr hdet
    simp only [place_call_error_message, raisedMessage]
    rw [pyOrStr_of_falsy c.error hmsg, pyOrStr_of_falsy c.detail herr]
    cases hd : c.detail with
    | none => rfl
    | some s =>
        rw [hd] at hdet
        have hs : s = "" := by
          by_contra hs
          rw [truthyStr_some_of_ne hs] at hdet
          cases hdet
        subst hs
        simp

/-- Witness for C6: a body whose only non-empty field is `detail` yields
that value. -/
theorem place_call_error_message_priority_witness :
    place_call_error_message 500 (some ⟨none, some "", some "oops"⟩) = "oops" :=
  (place_call_error_message_priority 500 ⟨none, some "", some "oops"⟩).2.2.1
    rfl (by decide) "oops" rfl (by decide)

/-! ## Call placement payload and the form submit handler
(`place_call` lines 87-97, submit handler lines 317-337) -/

/-- JSON payload assembled by `place_call` (lines 95-97), as an ordered
association list.  `voice_id` is the optional fifth argument; the key is
added exactly when the argument is truthy (`if voice_id:`), i.e. not `None`
and not the empty string. -/
def place_call_payload (ph name persona mode : String) (voice_id : Option String) :
    List (String × String) :=
  [("ph", ph), ("name", name), ("persona", persona), ("mode", mode)] ++
    (match voice_id with
     | some v => if v ≠ "" then [("voice_id", v)] else []
     | none => [])

/-- Outcome of one press of the form submit button: either an inline error
(`st.error`) with no network traffic, or a POST of the given payload. -/
inductive SubmitResult where
  | showError (msg : String)
  | call (payload : List (String × String))
deriving DecidableEq

/-- Whitespace stripped by Python's `str.strip()` with no argument,
restricted to the ASCII whitespace characters (space, tab, newline,
carriage return, vertical tab, form feed). -/
def isSpaceChar (c : Char) : Bool :=
  c = ' ' || c = '\t' || c = '\n' || c = '\r' || c.toNat = 11 || c.toNat = 12

/-- Python `str.strip()`: drop leading and trailing whitespace. -/
def pyStrip (s : String) : String :=
  String.mk (((s.data.dropWhile isSpaceChar).reverse.dropWhile isSpaceChar).reverse)

/-- The call site's voice argument (line 330):
`voice_id.strip() if (is_normal_mode and voice_id and voice_id.strip()) else None`,
with `is_normal_mode = (current_mode == "normal")`. -/
def form_to_send_voice (mode voiceInput : String) : Option String :=
  if mode = "normal" ∧ voiceInput ≠ "" ∧ pyStrip voiceInput ≠ "" then
    some (pyStrip voiceInput)
  else none

/-- Embedding of the submit handler (lines 317-337): phone validation, then
name, consent and persona-availability checks, each short-circuiting with an
inline error; only when all pass is `place_call` invoked, with stripped
phone and name and the mode-gated voice argument.  `disabled` is the
emptiness of the persona choices for the current mode (line 279). -/
def submit_place_call_form (ph name persona mode voiceInput : String)
    (consent_ack disabled : Bool) : SubmitResult :=
  if (validate_phone ph).1 = false then SubmitResult.showError (validate_phone ph).2
  else if pyStrip name = "" then SubmitResult.showError "Name is required."
  else if consent_ack = false then
    SubmitResult.showError "Please acknowledge consent before placing the call."
  else if disabled = true then
    SubmitResult.showError "No personas available for the selected mode. Try Refresh personas."
  else
    SubmitResult.call
      (place_call_payload (pyStrip ph) (pyStrip name) persona mode
        (form_to_send_voice mode voiceInput))

theorem place_call_payload_lookup_base (ph name persona mode : String) :
    ([("ph", ph), ("name", name), ("persona", persona), ("mode", mode)] :
      List (String × String)).lookup "voice_id" = none := by
  simp [List.lookup]

/-- C1: a submission pipeline run in impersonation mode never POSTs a
payload containing the "voice_id" key, whatever was typed in the voice
field. -/
theorem impersonation_payload_has_no_voice_id
    (ph name persona voiceInput : String) (consent_ack disabled : Bool)
    (p : List (String × String))
    (h : submit_place_call_form ph name persona "impersonation" voiceInput
      consent_ack disabled = SubmitResult.call p) :
    p.lookup "voice_id" = none := by
  have hv : form_to_send_voice "impersonation" voiceInput = none := by
    unfold form_to_send_voice
    rw [if_neg]
    rintro ⟨hmode, -⟩
    exact absurd hmode (by decide)
  unfold submit_place_call_form at h
  split at h
  · exact absurd h (by simp)
  · split at h
    · exact absurd h (by simp)
    · split at h
      · exact absurd h (by simp)
      · split at h
        · exact absurd h (by simp)
        · injection h with h
          subst h
          simp [place_call_payload, hv, List.lookup]

/-- Witness for C1: a fully valid impersonation submission with text in the
voice field still produces a payload without the "voice_id" key. -/
theorem impersonation_payload_has_no_voice_id_witness :
    (submit_place_call_form "+15551234567" "Jane Doe" "Bank Officer"
      "impersonation" "UgBBYS2sOqTuMpoF3BR0" true false =
      SubmitResult.call [("ph", "+15551234567"), ("name", "Jane Doe"),
        ("persona", "Bank Officer"), ("mode", "impersonation")]) ∧
    ([("ph", "+15551234567"), ("name", "Jane Doe"), ("persona", "Bank Officer"),
      ("mode", "impersonation")] : List (String × String)).lookup "voice_id" = none := by
  constructor
  · decide
  · exact impersonation_payload_has_no_voice_id "+15551234567" "Jane Doe"
      "Bank Officer" "UgBBYS2sOqTuMpoF3BR0" true false _ (by decide)

/-- C7: every submission that fails a local validation check shows the
specified inline error and never reaches `place_call` (no HTTP request). -/
theorem local_validation_blocks_call (ph name persona mode voiceInput : String)
    (consent_ack disabled : Bool) :
    ((validate_phone ph).1 = false →
      submit_place_call_form ph name persona mode voiceInput consent_ack disabled =
        SubmitResult.showError (validate_phone ph).2) ∧
    ((validate_phone ph).1 = true → pyStrip name = "" →
      submit_place_call_form ph name persona mode voiceInput consent_ack disabled =
        SubmitResult.showError "Name is required.") ∧
    ((validate_phone ph).1 = true → pyStrip name ≠ "" → consent_ack = false →
      submit_place_call_form ph name persona mode voiceInput consent_ack disabled =
        SubmitResult.showError "Please acknowledge consent before placing the call.") ∧
    ((validate_phone ph).1 = true → pyStrip name ≠ "" → consent_ack = true →
      disabled = true →
      submit_place_call_form ph name persona mode voiceInput consent_ack disabled =
        SubmitResult.showError
          "No personas available for the selected mode. Try Refresh personas.") ∧
    (((validate_phone ph).1 = false ∨ pyStrip name = "" ∨ consent_ack = false ∨
        disabled = true) →
      ∀ p, submit_place_call_form ph name persona mode voiceInput consent_ack disabled ≠
        SubmitResult.call p) := by
  refine ⟨?_, ?_, ?_, ?_, ?_⟩
  · intro hphone
    simp [submit_place_call_form, hphone]
  · intro hphone hname
    simp [submit_place_call_form, hphone, hname]
  · intro hphone hname hcons
    simp [submit_place_call_form, hphone, hname, hcons]
  · intro hphone hname hcons hdis
    simp [submit_place_call_form, hphone, hname, hcons, hdis]
  · intro hfail p
    unfold submit_place_call_form
    rcases hfail with h | h | h | h
    · simp [h]
    · rcases hb : (validate_phone ph).1 with _ | _
      · simp [hb]
      · simp [hb, h]
    · rcases hb : (validate_phone ph).1 with _ | _
      · simp [hb]
      · by_cases hn : pyStrip name = "" <;> simp [hb, hn, h]
    · rcases hb : (validate_phone ph).1 with _ | _
      · simp [hb]
      · by_cases hn : pyStrip name = "" <;>
          rcases consent_ack with _ | _ <;> simp [hb, hn, h]

/-- Witness for C7: the spec's example input "5551234" is rejected with the
E.164 message and no payload is ever POSTed. -/
theorem local_validation_blocks_call_witness :
    submit_place_call_form "5551234" "Jane Doe" "Bank Officer" "normal" ""
      true false =
      SubmitResult.showError "Enter a valid E.164 phone (e.g., +15551234567)." ∧
    ∀ p, submit_place_call_form "5551234" "Jane Doe" "Bank Officer" "normal" ""
      true false ≠ SubmitResult.call p := by
  constructor
  · have h := (local_validation_blocks_call "5551234" "Jane Doe" "Bank Officer"
      "normal" "" true false).1 (by decide)
    rw [h]
    decide
  · exact (local_validation_blocks_call "5551234" "Jane Doe" "Bank Officer"
      "normal" "" true false).2.2.2.2 (Or.inl (by decide))

/-- C10: `place_call` itself is mode-agnostic about the voice field: the
payload carries the "voice_id" key exactly when the `voice_id` argument is a
non-empty string (`None` and `""` are omitted in every mode), and the
normal-mode-only restriction lives solely in the call site's
`to_send_voice` expression, which is `None` whenever the mode is not
"normal". -/
theorem place_call_payload_voice_key (ph name persona mode : String)
    (voice_id : Option String) :
    (∀ v, (place_call_payload ph name persona mode voice_id).lookup "voice_id" =
        some v ↔ voice_id = some v ∧ v ≠ "") ∧
    (∀ mode2, (place_call_payload ph name persona mode voice_id).lookup "voice_id" =
      (place_call_payload ph name persona mode2 voice_id).lookup "voice_id") ∧
    (∀ currentMode voiceInput, currentMode ≠ "normal" →
      form_to_send_voice currentMode voiceInput = none) := by
  refine ⟨?_, ?_, ?_⟩
  · intro v
    cases voice_id with
    | none => simp [place_call_payload, List.lookup]
    | some v0 =>
        by_cases hv0 : v0 = ""
        · subst hv0
          simp [place_call_payload, List.lookup]
          exact fun h => h.symm
        · simp [place_call_payload, List.lookup, hv0]
          exact fun h hc => hv0 (h.trans hc)
  · intro mode2
    cases voice_id with
    | none => simp [place_call_payload, List.lookup]
    | some v0 =>
        by_cases hv0 : v0 = "" <;> simp [place_call_payload, List.lookup, hv0]
  · intro currentMode voiceInput hmode
    unfold form_to_send_voice
    rw [if_neg]
    rintro ⟨h, -⟩
    exact hmode h

/-- Witness for C10: a non-empty voice argument puts its value under
"voice_id"; the same arguments in impersonation mode at the call site send
no voice. -/
theorem place_call_payload_voice_key_witness :
    (place_call_payload "+15551234567" "Jane" "Bank Officer" "normal"
      (some "UgBBYS2sOqTuMpoF3BR0")).lookup "voice_id" =
      some "UgBBYS2sOqTuMpoF3BR0" ∧
    form_to_send_voice "impersonation" "UgBBYS2sOqTuMpoF3BR0" = none := by
  constructor
  · exact ((place_call_payload_voice_key "+15551234567" "Jane" "Bank Officer"
      "normal" (some "UgBBYS2sOqTuMpoF3BR0")).1 "UgBBYS2sOqTuMpoF3BR0").mpr
      ⟨rfl, by decide⟩
  · exact (place_call_payload_voice_key "" "" "" "" none).2.2 "impersonation"
      "UgBBYS2sOqTuMpoF3BR0" (by decide)

/-! ## Call listing (`fetch_calls`, src/streamlit_app.py lines 123-159) -/

/-- One entry of the backend's `/calls` response: `name`, `ph`, `callSid`. -/
structure Call where
  callSid : String
  name : String
  ph : String
deriving DecidableEq

/-- One loop iteration of `fetch_calls` (lines 138-151): fetch the call's
details and read `details.get("timestamp", 0)`; any raised exception is
swallowed and the record keeps timestamp 0.  `details` maps a callSid to the
detail-fetch outcome: `.error` models a raised exception, `.ok d` the
returned dict, represented by its optional `"timestamp"` entry. -/
def withTimestamp (details : String → Except String (Option Int)) (c : Call) :
    Call × Int :=
  match details c.callSid with
  | Except.ok d => (c, d.getD 0)
  | Except.error _ => (c, 0)

/-- Stable insertion for a descending sort by timestamp: the inserted element
comes from earlier in the source order than everything already in the list,
so on an equal timestamp it is placed first. -/
def insertByTs (x : Call × Int) : List (Call × Int) → List (Call × Int)
  | [] => [x]
  | y :: ys => if x.2 < y.2 then y :: insertByTs x ys else x :: y :: ys

/-- Stable sort by timestamp, descending.  CPython's `sorted(..., reverse=True)`
is a stable sort run on the reversed comparison, so records with equal keys
keep their source order; this insertion sort computes exactly that order. -/
def sortByTsDesc : List (Call × Int) → List (Call × Int)
  | [] => []
  | x :: xs => insertByTs x (sortByTsDesc xs)

/-- Embedding of `fetch_calls` (lines 136-155) after the `/calls` envelope
has been unwrapped to the list of call entries (`data.get("calls") or []`):
attach a timestamp to every entry, then sort descending by
`x.get("timestamp", 0)`. -/
def fetch_calls (calls : List Call)
    (details : String → Except String (Option Int)) : List (Call × Int) :=
  sortByTsDesc (calls.map (withTimestamp details))

theorem mem_insertByTs {x z : Call × Int} {l : List (Call × Int)} :
    z ∈ insertByTs x l ↔ z = x ∨ z ∈ l := by
  induction l with
  | nil => simp [insertByTs]
  | cons y ys ih =>
      unfold insertByTs
      split <;> simp only [List.mem_cons, ih] <;> tauto

theorem sorted_insertByTs (x : Call × Int) {l : List (Call × Int)}
    (hl : l.Pairwise (fun a b => b.2 ≤ a.2)) :
    (insertByTs x l).Pairwise (fun a b => b.2 ≤ a.2) := by
  induction l with
  | nil => simp [insertByTs]
  | cons y ys ih =>
      rw [List.pairwise_cons] at hl
      unfold insertByTs
      split
      · rename_i hxy
        rw [List.pairwise_cons]
        refine ⟨?_, ih hl.2⟩
        intro z hz
        rcases mem_insertByTs.mp hz with hz | hz
        · exact hz ▸ le_of_lt hxy
        · exact hl.1 z hz
      · rename_i hxy
        push_neg at hxy
        rw [List.pairwise_cons]
        refine ⟨?_, List.pairwise_cons.mpr hl⟩
        intro z hz
        rcases List.mem_cons.mp hz with hz | hz
        · exact hz ▸ hxy
        · exact le_trans (hl.1 z hz) hxy

theorem sorted_sortByTsDesc (l : List (Call × Int)) :
    (sortByTsDesc l).Pairwise (fun a b => b.2 ≤ a.2) := by
  induction l with
  | nil => exact List.Pairwise.nil
  | cons x xs ih => exact sorted_insertByTs x ih

theorem perm_insertByTs (x : Call × Int) (l : List (Call × Int)) :
    (insertByTs x l).Perm (x :: l) := by
  induction l with
  | nil => exact List.Perm.refl _
  | cons y ys ih =>
      unfold insertByTs
      split
      · exact ((ih.cons y).trans (List.Perm.swap x y ys))
      · exact List.Perm.refl _

theorem perm_sortByTsDesc (l : List (Call × Int)) :
    (sortByTsDesc l).Perm l := by
  induction l with
  | nil => exact List.Perm.refl _
  | cons x xs ih => exact (perm_insertByTs x (sortByTsDesc xs)).trans (ih.cons x)

theorem filter_insertByTs (t : Int) (x : Call × Int) (l : List (Call × Int)) :
    (insertByTs x l).filter (fun p => decide (p.2 = t)) =
      if x.2 = t then x :: l.filter (fun p => decide (p.2 = t))
      else l.filter (fun p => decide (p.2 = t)) := by
  induction l with
  | nil =>
      by_cases hx : x.2 = t <;> simp [insertByTs, List.filter, hx]
  | cons y ys ih =>
      unfold insertByTs
      split
      · rename_i hxy
        by_cases hx : x.2 = t <;> by_cases hy : y.2 = t
        · exact absurd (hx.trans hy.symm) (ne_of_lt hxy)
        · simp [List.filter, hx, hy, ih]
        · simp [List.filter, hx, hy, ih]
        · simp [List.filter, hx, hy, ih]
      · by_cases hx : x.2 = t <;> simp [List.filter, hx]

theorem filter_sortByTsDesc (t : Int) (l : List (Call × Int)) :
    (sortByTsDesc l).filter (fun p => decide (p.2 = t)) =
      l.filter (fun p => decide (p.2 = t)) := by
  induction l with
  | nil => rfl
  | cons x xs ih =>
      rw [sortByTsDesc, filter_insertByTs]
      by_cases hx : x.2 = t <;> simp [List.filter, hx, ih]

/-- C3: for every `/calls` response and every detail-fetch behaviour, the
list returned by `fetch_calls` is sorted by timestamp descending; it is a
permutation of the timestamp-annotated source entries (so nothing is
dropped); an entry whose detail fetch raises is still present, with
timestamp 0; and entries with equal timestamps keep their source order
(the sort is stable). -/
theorem fetch_calls_sorted (calls : List Call)
    (details : String → Except String (Option Int)) :
    (fetch_calls calls details).Pairwise (fun a b => b.2 ≤ a.2) ∧
    (fetch_calls calls details).Perm (calls.map (withTimestamp details)) ∧
    (∀ c ∈ calls, ∀ e, details c.callSid = Except.error e →
      (c, 0) ∈ fetch_calls calls details) ∧
    (∀ t : Int, (fetch_calls calls details).filter (fun p => decide (p.2 = t)) =
      (calls.map (withTimestamp details)).filter (fun p => decide (p.2 = t))) := by
  refine ⟨sorted_sortByTsDesc _, perm_sortByTsDesc _, ?_, fun t => filter_sortByTsDesc t _⟩
  intro c hc e he
  have hw : withTimestamp details c = (c, 0) := by
    unfold withTimestamp
    rw [he]
  have hmem : (c, 0) ∈ calls.map (withTimestamp details) :=
    hw ▸ List.mem_map_of_mem (withTimestamp details) hc
  exact ((perm_sortByTsDesc (calls.map (withTimestamp details))).mem_iff).mpr hmem

/-- Witness for C3: three calls, the middle one's detail fetch raising,
another reporting a later timestamp: the failing record is kept with
timestamp 0 and the result is in descending timestamp order. -/
theorem fetch_calls_sorted_witness :
    (⟨"S2", "Bob", "+15550000002"⟩, (0 : Int)) ∈
      fetch_calls
        [⟨"S1", "Alice", "+15550000001"⟩, ⟨"S2", "Bob", "+15550000002"⟩,
          ⟨"S3", "Carol", "+15550000003"⟩]
        (fun sid =>
          if sid = "S1" then Except.ok (some 5)
          else if sid = "S2" then Except.error "detail fetch failed"
          else Except.ok (some 9)) ∧
    fetch_calls
        [⟨"S1", "Alice", "+15550000001"⟩, ⟨"S2", "Bob", "+15550000002"⟩,
          ⟨"S3", "Carol", "+15550000003"⟩]
        (fun sid =>
          if sid = "S1" then Except.ok (some 5)
          else if sid = "S2" then Except.error "detail fetch failed"
          else Except.ok (some 9)) =
      [(⟨"S3", "Carol", "+15550000003"⟩, 9), (⟨"S1", "Alice", "+15550000001"⟩, 5),
        (⟨"S2", "Bob", "+15550000002"⟩, 0)] := by
  constructor
  · exact (fetch_calls_sorted
      [⟨"S1", "Alice", "+15550000001"⟩, ⟨"S2", "Bob", "+15550000002"⟩,
        ⟨"S3", "Carol", "+15550000003"⟩]
      (fun sid =>
        if sid = "S1" then Except.ok (some 5)
        else if sid = "S2" then Except.error "detail fetch failed"
        else Except.ok (some 9))).2.2.1
      ⟨"S2", "Bob", "+15550000002"⟩ (by decide) "detail fetch failed" rfl
  · decide

/-! ## Backend URL changes and the personas caches
(src/streamlit_app.py lines 10, 21-47, 206-240)

Two distinct caches exist: the session-state copy
`st.session_state["personas"]` (filled by the prefetch block, lines
234-240) and the `@st.cache_data(ttl=30)` memo attached to
`fetch_personas` (line 21).  The memo is keyed on the function's arguments
only; `fetch_personas` takes no arguments and reads the backend URL from
session state inside its body, so the memo key never involves the URL.
Only `refresh_personas` (line 46) clears the memo. -/

def DEFAULT_BACKEND_URL : String := "https://dominant-usually-oyster.ngrok-free.app"

/-- The TTL of the `@st.cache_data(ttl=30)` decorator on `fetch_personas`. -/
def CACHE_TTL : Nat := 30

/-- A fetched persona set: `{"normal": [...], "impersonation": [...]}`. -/
structure PersonaSet where
  normal : List String
  impersonation : List String
deriving DecidableEq

/-- The app state relevant to persona caching: the configured backend URL,
the session-state personas entry, the `st.cache_data` memo for
`fetch_personas` (stored as fetch time and value; `none` = empty memo), and
a log of the URLs actually contacted by network fetches. -/
structure AppState where
  backend_url : String
  personas : Option PersonaSet
  cacheEntry : Option (Nat × PersonaSet)
  netLog : List String
deriving DecidableEq

/-- Embedding of a call to the decorated `fetch_personas` (lines 21-42) at
time `now`: if the memo holds a value younger than the TTL it is returned
with no network traffic; otherwise the backend at the *current session URL*
is contacted and the memo refilled.  `net` gives each backend's persona
response. -/
def fetch_personas_cached (net : String → PersonaSet) (now : Nat)
    (s : AppState) : PersonaSet × AppState :=
  match s.cacheEntry with
  | some (t0, v) =>
      if now < t0 + CACHE_TTL then (v, s)
      else
        let v2 := net s.backend_url
        (v2, { s with cacheEntry := some (now, v2),
                      netLog := s.netLog ++ [s.backend_url] })
  | none =>
      let v2 := net s.backend_url
      (v2, { s with cacheEntry := some (now, v2),
                    netLog := s.netLog ++ [s.backend_url] })

/-- Embedding of the prefetch block (lines 234-240): when the session has no
personas entry, `st.session_state["personas"] = fetch_personas()`. -/
def prefetch_personas (net : String → PersonaSet) (now : Nat)
    (s : AppState) : AppState :=
  match s.personas with
  | some _ => s
  | none =>
      let r := fetch_personas_cached net now s
      { r.2 with personas := some r.1 }

/-- Embedding of the sidebar URL handler (lines 217-222): when the entered
URL differs from the stored one, store it, delete the session-state
personas entry, and rerun.  The `st.cache_data` memo of `fetch_personas` is
left untouched (`fetch_personas.clear()` is not called here). -/
def sidebar_url_change (newUrl : String) (s : AppState) : AppState :=
  if newUrl ≠ s.backend_url then
    { s with backend_url := newUrl, personas := none }
  else s

/-- C4 failing scenario: backend A is fetched at the initial load (t = 0);
the user switches to backend B at t = 5, inside the 30-unit TTL; on the
rerun, the session personas entry is refilled from the still-warm memo, so
the user sees backend A's personas and B is never contacted. -/
theorem url_change_serves_stale_personas :
    (fun (net : String → PersonaSet) =>
      (fun s3 =>
          s3.backend_url = "https://b.example" ∧
          net "https://b.example" = ⟨["personaB"], []⟩ ∧
          s3.personas = some ⟨["personaA"], []⟩ ∧
          decide (s3.personas = some (net s3.backend_url)) = false ∧
          s3.netLog = [DEFAULT_BACKEND_URL] ∧
          decide ("https://b.example" ∈ s3.netLog) = false)
        (prefetch_personas net 5
          (sidebar_url_change "https://b.example"
            (prefetch_personas net 0
              ⟨DEFAULT_BACKEND_URL, none, none, []⟩))))
      (fun url => if url = "https://b.example" then ⟨["personaB"], []⟩
        else ⟨["personaA"], []⟩) := by
  exact ⟨rfl, rfl, rfl, by decide, rfl, by decide⟩

/-! ## Timestamp formatting (`format_timestamp`, src/streamlit_app.py lines 62-84)

The function runs `float(timestamp)`, then
`datetime.fromtimestamp(ts / 1000, tz=timezone(timedelta(hours=5, minutes=30)))`,
then `strftime("%b %d, %Y at %I:%M %p IST")`, catching only
`(ValueError, TypeError, OSError)`.  The embedding models the CPython
behaviour of each stage for integral millisecond values:

* `float(int_value)` raises `OverflowError` ("int too large to convert to
  float") when the rounded value exceeds the largest finite double;
  `OverflowError` is an `ArithmeticError`, not in the caught tuple, so it
  propagates.
* `float(numeric_string)` instead follows `strtod` and returns `inf` past
  the same bound; `fromtimestamp(inf)` then raises `OverflowError`
  ("timestamp out of range for platform time_t"), again uncaught.
* `fromtimestamp` with an explicit tz splits the seconds value; a value
  outside `time_t` (64-bit) raises `OverflowError` (uncaught); `gmtime`
  failures and a UTC year outside 1..9999 raise `OSError`/`ValueError`
  (both caught, hence "N/A"); `tz.fromutc` pushing the result past
  `datetime.max` (UTC instants in the last 5:30 hours of year 9999) raises
  `OverflowError` (uncaught).
* `float("nan")`-like inputs raise `ValueError` in the timestamp
  conversion (caught); infinite floats fall out of the `time_t` range
  (uncaught `OverflowError`). -/

/-- The uncaught exception relevant to `format_timestamp`. -/
inductive PyExc where
  | overflowError
deriving DecidableEq

/-- Smallest integer magnitude whose round-half-even conversion to an IEEE
double exceeds the largest finite double `2^1024 - 2^971`: conversion of
such an int raises `OverflowError`, and `strtod` on such a decimal literal
returns `inf`. -/
def FLOAT_OVERFLOW_BOUND : Int := ((2 ^ 1024 - 2 ^ 970 : Nat) : Int)

/-- Largest value of a 64-bit `time_t`. -/
def TIME_T_MAX : Int := ((2 ^ 63 - 1 : Nat) : Int)

/-- Seconds of the fixed IST offset `timedelta(hours=5, minutes=30)`
(line 79): UTC+5:30 = 19800 seconds. -/
def IST_OFFSET_SECONDS : Int := 19800

/-- The public inputs of `format_timestamp` (docstring: int, float or
string; plus absent values).  Strings are represented by their CPython
`float()` lexing outcome: `numStr n` is a numeric literal of integral value
`n` (e.g. `"42"`), `emptyStr` the empty string, `badStr` any string
`float()` rejects with `ValueError`.  `int n` is a Python int; `floatVal n`
a finite float of integral value `n` (fractional-millisecond floats shift
only microseconds, which the minute-level format never shows);
`floatInf`/`floatNaN` the non-finite floats; `none` the missing value. -/
inductive TsInput where
  | none
  | emptyStr
  | badStr
  | numStr (n : Int)
  | int (n : Int)
  | floatVal (n : Int)
  | floatInf
  | floatNaN

/-- Proleptic-Gregorian civil date from days since 1970-01-01 (the
conversion performed by `gmtime`), as (year, month, day). -/
def civilFromDays (z : Int) : Int × Nat × Nat :=
  let days := z + 719468
  let era := days.fdiv 146097
  let doe := (days - era * 146097).toNat
  let yoe := (doe - doe / 1460 + doe / 36524 - doe / 146096) / 365
  let doy := doe - (365 * yoe + yoe / 4 - yoe / 100)
  let mp := (5 * doy + 2) / 153
  let d := doy - (153 * mp + 2) / 5 + 1
  let m := if mp < 10 then mp + 3 else mp - 9
  ((yoe : Int) + era * 400 + (if m ≤ 2 then 1 else 0), m, d)

/-- The datetime components the format uses. -/
structure DateTime where
  year : Int
  month : Nat
  day : Nat
  hour : Nat
  minute : Nat
deriving DecidableEq

/-- Split epoch seconds into civil date and time of day. -/
def civilDateTime (sec : Int) : DateTime :=
  let days := sec.fdiv 86400
  let sod := (sec - days * 86400).toNat
  let ymd := civilFromDays days
  ⟨ymd.1, ymd.2.1, ymd.2.2, sod / 3600, sod % 3600 / 60⟩

/-- Month abbreviations produced by `strftime` directive `%b` in the C
locale. -/
def MONTH_ABBREVS : List String :=
  ["Jan", "Feb", "Mar", "Apr", "May", "Jun",
   "Jul", "Aug", "Sep", "Oct", "Nov", "Dec"]

def monthAbb (m : Nat) : String := MONTH_ABBREVS.getD (m - 1) ""

/-- Two-digit zero padding, as in `%d`, `%I`, `%M`. -/
def pad2 (n : Nat) : String := if n < 10 then "0" ++ toString n else toString n

/-- 12-hour clock value of `%I`. -/
def hour12 (h : Nat) : Nat := if h % 12 = 0 then 12 else h % 12

/-- `%p` in the C locale. -/
def ampm (h : Nat) : String := if h < 12 then "AM" else "PM"

/-- Interpreter for the `strftime` directives used by the app's format
string; an unknown directive is echoed literally. -/
def strftimeRun (dt : DateTime) : List Char → String
  | [] => ""
  | '%' :: c :: rest =>
      (if c = 'b' then monthAbb dt.month
       else if c = 'd' then pad2 dt.day
       else if c = 'Y' then toString dt.year
       else if c = 'I' then pad2 (hour12 dt.hour)
       else if c = 'M' then pad2 dt.minute
       else if c = 'p' then ampm dt.hour
       else String.mk ['%', c]) ++ strftimeRun dt rest
  | c :: rest => String.mk [c] ++ strftimeRun dt rest

/-- The format string `"%b %d, %Y at %I:%M %p IST"` of line 82, as its
character list. -/
def strftime_IST_format : List Char :=
  ['%', 'b', ' ', '%', 'd', ',', ' ', '%', 'Y', ' ', 'a', 't', ' ',
   '%', 'I', ':', '%', 'M', ' ', '%', 'p', ' ', 'I', 'S', 'T']

/-- Outcome of `datetime.fromtimestamp(sec, tz=IST)`: a result, an
exception caught by `format_timestamp`'s `except` clause
(`ValueError`/`OSError`), or an uncaught `OverflowError`. -/
inductive FromTsResult where
  | ok (dt : DateTime)
  | caughtError
  | uncaughtOverflow
deriving DecidableEq

/-- `datetime.fromtimestamp(n / 1000, tz=IST)` for an exact integral
millisecond value `n`: seconds out of `time_t` raise an uncaught
`OverflowError`; a UTC year outside 1..9999 raises a caught
`ValueError`/`OSError`; `fromutc` adding 5:30 past year 9999 raises an
uncaught `OverflowError`; otherwise the IST civil datetime results. -/
def fromtimestampIST (n : Int) : FromTsResult :=
  if TIME_T_MAX < ((n.fdiv 1000).natAbs : Int) then FromTsResult.uncaughtOverflow
  else if (civilDateTime (n.fdiv 1000)).year < 1 ∨
      9999 < (civilDateTime (n.fdiv 1000)).year then FromTsResult.caughtError
  else if 9999 < (civilDateTime (n.fdiv 1000 + IST_OFFSET_SECONDS)).year then
    FromTsResult.uncaughtOverflow
  else FromTsResult.ok (civilDateTime (n.fdiv 1000 + IST_OFFSET_SECONDS))

/-- The tail of `format_timestamp` for a nonzero numeric value that
survived `float()`: format on success, "N/A" when the conversion raised a
caught exception, propagate an uncaught `OverflowError`. -/
def formatViaFromTs (n : Int) : Except PyExc String :=
  match fromtimestampIST n with
  | FromTsResult.ok dt => Except.ok (strftimeRun dt strftime_IST_format)
  | FromTsResult.caughtError => Except.ok "N/A"
  | FromTsResult.uncaughtOverflow => Except.error PyExc.overflowError

/-- Embedding of `format_timestamp` (lines 62-84).  `Except.error` is an
exception escaping the function (only `OverflowError` can). -/
def format_timestamp : TsInput → Except PyExc String
  | TsInput.none => Except.ok "N/A"
  | TsInput.emptyStr => Except.ok "N/A"
  | TsInput.badStr => Except.ok "N/A"
  | TsInput.floatNaN => Except.ok "N/A"
  | TsInput.floatInf => Except.error PyExc.overflowError
  | TsInput.int n =>
      if n = 0 then Except.ok "N/A"
      else if FLOAT_OVERFLOW_BOUND ≤ (n.natAbs : Int) then
        Except.error PyExc.overflowError
      else formatViaFromTs n
  | TsInput.numStr n =>
      if n = 0 then Except.ok "N/A"
      else if FLOAT_OVERFLOW_BOUND ≤ (n.natAbs : Int) then
        Except.error PyExc.overflowError
      else formatViaFromTs n
  | TsInput.floatVal n =>
      if n = 0 then Except.ok "N/A"
      else formatViaFromTs n

theorem string_eq_of_data {a b : String} (h : a.data = b.data) : a = b := by
  cases a
  cases b
  cases h
  rfl

theorem string_data_append (a b : String) : (a ++ b).data = a.data ++ b.data := by
  cases a
  cases b
  rfl

/-- The IST datetime of a millisecond value, per the spec: epoch seconds
shifted by the fixed UTC+5:30 offset. -/
def istDateTime (n : Int) : DateTime :=
  civilDateTime (n.fdiv 1000 + IST_OFFSET_SECONDS)

/-- The spec's rendering shape
`"{Mon} {DD}, {YYYY} at {hh}:{mm} {AM/PM} IST"` applied to the IST
datetime of `n` milliseconds. -/
def istShape (n : Int) : String :=
  monthAbb (istDateTime n).month ++ " " ++ pad2 (istDateTime n).day ++ ", " ++
    toString (istDateTime n).year ++ " at " ++ pad2 (hour12 (istDateTime n).hour) ++
    ":" ++ pad2 (istDateTime n).minute ++ " " ++ ampm (istDateTime n).hour ++ " IST"

theorem strftimeRun_ist_eq (dt : DateTime) :
    strftimeRun dt strftime_IST_format =
      monthAbb dt.month ++ " " ++ pad2 dt.day ++ ", " ++ toString dt.year ++
        " at " ++ pad2 (hour12 dt.hour) ++ ":" ++ pad2 dt.minute ++ " " ++
        ampm dt.hour ++ " IST" := by
  apply string_eq_of_data
  simp only [strftime_IST_format, strftimeRun, string_data_append,
    List.append_assoc]
  rfl

/-- The numeric millisecond values whose whole pipeline stays in range:
`float()` conversion finite, seconds within `time_t`, UTC year in 1..9999,
and the IST shift not exceeding year 9999. -/
def inFormatRange (n : Int) : Prop :=
  (n.natAbs : Int) < FLOAT_OVERFLOW_BOUND ∧
  ((n.fdiv 1000).natAbs : Int) ≤ TIME_T_MAX ∧
  1 ≤ (civilDateTime (n.fdiv 1000)).year ∧
  (civilDateTime (n.fdiv 1000)).year ≤ 9999 ∧
  (civilDateTime (n.fdiv 1000 + IST_OFFSET_SECONDS)).year ≤ 9999

instance instDecidableInFormatRange (n : Int) : Decidable (inFormatRange n) := by
  unfold inFormatRange
  infer_instance

/-- Counterexample to C8 as stated: the numeric, nonzero input
-100000000000000 (milliseconds, year ≈ -1199) is rendered "N/A" — the
out-of-range `ValueError` is caught — although the claim reserves "N/A"
for non-numeric, zero, or missing input and promises a formatted date for
every other input. -/
theorem format_timestamp_numeric_na_counterexample :
    format_timestamp (TsInput.int (-100000000000000)) = Except.ok "N/A" ∧
    decide ((-100000000000000 : Int) = 0) = false := by
  exact ⟨rfl, by decide⟩

/-- C8 (amended): for nonzero numeric input (int, integral numeric string,
or integral float) whose value stays within the float/time_t/datetime
ranges, the result is the milliseconds-to-seconds value shifted by the
fixed UTC+5:30 offset and printed as
"{Mon} {DD}, {YYYY} at {hh}:{mm} {AM/PM} IST"; non-numeric, zero, or
missing input — and also in-float-range numeric input whose UTC year falls
outside 1..9999 — yields exactly "N/A". -/
theorem format_timestamp_ist (n : Int) (hn : n ≠ 0) (hr : inFormatRange n) :
    format_timestamp (TsInput.int n) = Except.ok (istShape n) ∧
    format_timestamp (TsInput.numStr n) = Except.ok (istShape n) ∧
    format_timestamp (TsInput.floatVal n) = Except.ok (istShape n) ∧
    format_timestamp TsInput.none = Except.ok "N/A" ∧
    format_timestamp TsInput.emptyStr = Except.ok "N/A" ∧
    format_timestamp TsInput.badStr = Except.ok "N/A" ∧
    format_timestamp (TsInput.int 0) = Except.ok "N/A" ∧
    (∀ m : Int, m ≠ 0 → (m.natAbs : Int) < FLOAT_OVERFLOW_BOUND →
      ((m.fdiv 1000).natAbs : Int) ≤ TIME_T_MAX →
      ((civilDateTime (m.fdiv 1000)).year < 1 ∨
        9999 < (civilDateTime (m.fdiv 1000)).year) →
      format_timestamp (TsInput.int m) = Except.ok "N/A") := by
  obtain ⟨h1, h2, h3, h4, h5⟩ := hr
  have hcore : formatViaFromTs n = Except.ok (istShape n) := by
    unfold formatViaFromTs fromtimestampIST
    rw [if_neg (not_lt.mpr h2),
      if_neg (not_or.mpr ⟨not_lt.mpr h3, not_lt.mpr h4⟩),
      if_neg (not_lt.mpr h5)]
    show Except.ok
      (strftimeRun (civilDateTime (n.fdiv 1000 + IST_OFFSET_SECONDS))
        strftime_IST_format) = _
    rw [strftimeRun_ist_eq]
    rfl
  refine ⟨?_, ?_, ?_, rfl, rfl, rfl, rfl, ?_⟩
  · simp only [format_timestamp]
    rw [if_neg hn, if_neg (not_le.mpr h1), hcore]
  · simp only [format_timestamp]
    rw [if_neg hn, if_neg (not_le.mpr h1), hcore]
  · simp only [format_timestamp]
    rw [if_neg hn, hcore]
  · intro m hm hmf hmt hmy
    simp only [format_timestamp]
    rw [if_neg hm, if_neg (not_le.mpr hmf)]
    unfold formatViaFromTs fromtimestampIST
    rw [if_neg (not_lt.mpr hmt), if_pos hmy]

/-- Witness for C8: 1767176100000 ms is 2025-12-31 10:15 UTC, i.e.
2025-12-31 15:45 IST, rendered with the zero-padded 12-hour clock. -/
theorem format_timestamp_ist_witness :
    format_timestamp (TsInput.int 1767176100000) =
      Except.ok "Dec 31, 2025 at 03:45 PM IST" := by
  have h := (format_timestamp_ist 1767176100000 (by decide) (by decide)).1
  rw [h]
  rfl

/-- The inputs on which `format_timestamp` raises an uncaught
`OverflowError`: infinite floats; ints past the float conversion bound;
numeric values whose seconds exceed `time_t`; and values whose UTC instant
is in year 9999 but whose IST shift passes `datetime.max`. -/
def overflowInput : TsInput → Bool
  | TsInput.int n =>
      decide (n ≠ 0) &&
        (decide (FLOAT_OVERFLOW_BOUND ≤ (n.natAbs : Int)) ||
         decide (TIME_T_MAX < ((n.fdiv 1000).natAbs : Int)) ||
         (decide (1 ≤ (civilDateTime (n.fdiv 1000)).year) &&
          decide ((civilDateTime (n.fdiv 1000)).year ≤ 9999) &&
          decide (9999 < (civilDateTime (n.fdiv 1000 + IST_OFFSET_SECONDS)).year)))
  | TsInput.numStr n =>
      decide (n ≠ 0) &&
        (decide (FLOAT_OVERFLOW_BOUND ≤ (n.natAbs : Int)) ||
         decide (TIME_T_MAX < ((n.fdiv 1000).natAbs : Int)) ||
         (decide (1 ≤ (civilDateTime (n.fdiv 1000)).year) &&
          decide ((civilDateTime (n.fdiv 1000)).year ≤ 9999) &&
          decide (9999 < (civilDateTime (n.fdiv 1000 + IST_OFFSET_SECONDS)).year)))
  | TsInput.floatVal n =>
      decide (n ≠ 0) &&
        (decide (TIME_T_MAX < ((n.fdiv 1000).natAbs : Int)) ||
         (decide (1 ≤ (civilDateTime (n.fdiv 1000)).year) &&
          decide ((civilDateTime (n.fdiv 1000)).year ≤ 9999) &&
          decide (9999 < (civilDateTime (n.fdiv 1000 + IST_OFFSET_SECONDS)).year)))
  | TsInput.floatInf => true
  | _ => false

theorem formatViaFromTs_ok_of (n : Int)
    (hB : ¬ TIME_T_MAX < ((n.fdiv 1000).natAbs : Int))
    (hC : ¬(1 ≤ (civilDateTime (n.fdiv 1000)).year ∧
        (civilDateTime (n.fdiv 1000)).year ≤ 9999 ∧
        9999 < (civilDateTime (n.fdiv 1000 + IST_OFFSET_SECONDS)).year)) :
    ∃ s, formatViaFromTs n = Except.ok s := by
  unfold formatViaFromTs fromtimestampIST
  rw [if_neg hB]
  by_cases hY : (civilDateTime (n.fdiv 1000)).year < 1 ∨
      9999 < (civilDateTime (n.fdiv 1000)).year
  · rw [if_pos hY]
    exact ⟨"N/A", rfl⟩
  · rw [if_neg hY]
    push_neg at hY
    have hD : ¬ 9999 < (civilDateTime (n.fdiv 1000 + IST_OFFSET_SECONDS)).year :=
      fun hd => hC ⟨hY.1, hY.2, hd⟩
    rw [if_neg hD]
    exact ⟨_, rfl⟩

theorem formatViaFromTs_overflow (n : Int) :
    (TIME_T_MAX < ((n.fdiv 1000).natAbs : Int) →
      formatViaFromTs n = Except.error PyExc.overflowError) ∧
    (1 ≤ (civilDateTime (n.fdiv 1000)).year →
      (civilDateTime (n.fdiv 1000)).year ≤ 9999 →
      9999 < (civilDateTime (n.fdiv 1000 + IST_OFFSET_SECONDS)).year →
      formatViaFromTs n = Except.error PyExc.overflowError) := by
  constructor
  · intro hB
    unfold formatViaFromTs fromtimestampIST
    rw [if_pos hB]
  · intro h3 h4 h5
    unfold formatViaFromTs fromtimestampIST
    by_cases hB : TIME_T_MAX < ((n.fdiv 1000).natAbs : Int)
    · rw [if_pos hB]
    · rw [if_neg hB, if_neg (not_or.mpr ⟨not_lt.mpr h3, not_lt.mpr h4⟩),
        if_pos h5]

theorem numeric_branch_total (n : Int)
    (h : (decide (n ≠ 0) &&
        (decide (FLOAT_OVERFLOW_BOUND ≤ (n.natAbs : Int)) ||
         decide (TIME_T_MAX < ((n.fdiv 1000).natAbs : Int)) ||
         (decide (1 ≤ (civilDateTime (n.fdiv 1000)).year) &&
          decide ((civilDateTime (n.fdiv 1000)).year ≤ 9999) &&
          decide (9999 < (civilDateTime (n.fdiv 1000 + IST_OFFSET_SECONDS)).year)))) =
      false) :
    ∃ s, (if n = 0 then Except.ok "N/A"
      else if FLOAT_OVERFLOW_BOUND ≤ (n.natAbs : Int) then
        Except.error PyExc.overflowError
      else formatViaFromTs n) = Except.ok s := by
  by_cases hn : n = 0
  · exact ⟨"N/A", by rw [if_pos hn]⟩
  · have hA : ¬ FLOAT_OVERFLOW_BOUND ≤ (n.natAbs : Int) := by
      intro hA
      rw [decide_eq_true hn, decide_eq_true hA] at h
      simp at h
    have hB : ¬ TIME_T_MAX < ((n.fdiv 1000).natAbs : Int) := by
      intro hB
      rw [decide_eq_true hn, decide_eq_true hB] at h
      simp at h
    have hC : ¬(1 ≤ (civilDateTime (n.fdiv 1000)).year ∧
        (civilDateTime (n.fdiv 1000)).year ≤ 9999 ∧
        9999 < (civilDateTime (n.fdiv 1000 + IST_OFFSET_SECONDS)).year) := by
      rintro ⟨p1, p2, p3⟩
      rw [decide_eq_true hn, decide_eq_true p1, decide_eq_true p2,
        decide_eq_true p3] at h
      simp at h
    rw [if_neg hn, if_neg hA]
    exact formatViaFromTs_ok_of n hB hC

theorem numeric_branch_overflow (n : Int)
    (h : (decide (n ≠ 0) &&
        (decide (FLOAT_OVERFLOW_BOUND ≤ (n.natAbs : Int)) ||
         decide (TIME_T_MAX < ((n.fdiv 1000).natAbs : Int)) ||
         (decide (1 ≤ (civilDateTime (n.fdiv 1000)).year) &&
          decide ((civilDateTime (n.fdiv 1000)).year ≤ 9999) &&
          decide (9999 < (civilDateTime (n.fdiv 1000 + IST_OFFSET_SECONDS)).year)))) =
      true) :
    (if n = 0 then Except.ok "N/A"
      else if FLOAT_OVERFLOW_BOUND ≤ (n.natAbs : Int) then
        Except.error PyExc.overflowError
      else formatViaFromTs n) = Except.error PyExc.overflowError := by
  by_cases hn : n = 0
  · rw [decide_eq_false (not_not_intro hn)] at h
    simp at h
  · rw [if_neg hn]
    by_cases hA : FLOAT_OVERFLOW_BOUND ≤ (n.natAbs : Int)
    · rw [if_pos hA]
    · rw [if_neg hA]
      by_cases hB : TIME_T_MAX < ((n.fdiv 1000).natAbs : Int)
      · exact (formatViaFromTs_overflow n).1 hB
      · have hC : 1 ≤ (civilDateTime (n.fdiv 1000)).year ∧
            (civilDateTime (n.fdiv 1000)).year ≤ 9999 ∧
            9999 < (civilDateTime (n.fdiv 1000 + IST_OFFSET_SECONDS)).year := by
          rw [decide_eq_true hn, decide_eq_false hA, decide_eq_false hB] at h
          simp only [Bool.true_and, Bool.false_or, Bool.and_eq_true,
            decide_eq_true_eq] at h
          tauto
        exact (formatViaFromTs_overflow n).2 hC.1 hC.2.1 hC.2.2

/-- Counterexample to C9 as stated: on the int input 10^400 the conversion
`float(timestamp)` raises `OverflowError`, which is not in the caught
`(ValueError, TypeError, OSError)` tuple, so the exception propagates out
of `format_timestamp`. -/
theorem format_timestamp_overflow_counterexample :
    format_timestamp (TsInput.int ((10 ^ 400 : Nat) : Int)) =
      Except.error PyExc.overflowError := by
  rfl

/-- C9 (amended): `format_timestamp` returns a string — never an
exception — on every input except those in `overflowInput` (magnitudes
beyond the float-conversion bound, seconds beyond `time_t`, the 5:30-hour
`fromutc` overflow window at the end of year 9999, and infinite floats),
where an uncaught `OverflowError` escapes. -/
theorem format_timestamp_total (v : TsInput) :
    (overflowInput v = false → ∃ s, format_timestamp v = Except.ok s) ∧
    (overflowInput v = true →
      format_timestamp v = Except.error PyExc.overflowError) := by
  cases v with
  | none => exact ⟨fun _ => ⟨"N/A", rfl⟩, fun h => absurd h (by decide)⟩
  | emptyStr => exact ⟨fun _ => ⟨"N/A", rfl⟩, fun h => absurd h (by decide)⟩
  | badStr => exact ⟨fun _ => ⟨"N/A", rfl⟩, fun h => absurd h (by decide)⟩
  | floatNaN => exact ⟨fun _ => ⟨"N/A", rfl⟩, fun h => absurd h (by decide)⟩
  | floatInf => exact ⟨fun h => absurd h (by decide), fun _ => rfl⟩
  | int n => exact ⟨fun h => numeric_branch_total n h,
      fun h => numeric_branch_overflow n h⟩
  | numStr n => exact ⟨fun h => numeric_branch_total n h,
      fun h => numeric_branch_overflow n h⟩
  | floatVal n =>
      constructor
      · intro h
        simp only [overflowInput] at h
        by_cases hn : n = 0
        · exact ⟨"N/A", by show (if n = 0 then Except.ok "N/A"
            else formatViaFromTs n) = _; rw [if_pos hn]⟩
        · have hB : ¬ TIME_T_MAX < ((n.fdiv 1000).natAbs : Int) := by
            intro hB
            rw [decide_eq_true hn, decide_eq_true hB] at h
            simp at h
          have hC : ¬(1 ≤ (civilDateTime (n.fdiv 1000)).year ∧
              (civilDateTime (n.fdiv 1000)).year ≤ 9999 ∧
              9999 < (civilDateTime (n.fdiv 1000 + IST_OFFSET_SECONDS)).year) := by
            rintro ⟨p1, p2, p3⟩
            rw [decide_eq_true hn, decide_eq_true p1, decide_eq_true p2,
              decide_eq_true p3] at h
            simp at h
          obtain ⟨s, hs⟩ := formatViaFromTs_ok_of n hB hC
          refine ⟨s, ?_⟩
          show (if n = 0 then Except.ok "N/A" else formatViaFromTs n) = _
          rw [if_neg hn, hs]
      · intro h
        simp only [overflowInput] at h
        by_cases hn : n = 0
        · rw [decide_eq_false (not_not_intro hn)] at h
          simp at h
        · show (if n = 0 then Except.ok "N/A" else formatViaFromTs n) = _
          rw [if_neg hn]
          by_cases hB : TIME_T_MAX < ((n.fdiv 1000).natAbs : Int)
          · exact (formatViaFromTs_overflow n).1 hB
          · have hC : 1 ≤ (civilDateTime (n.fdiv 1000)).year ∧
                (civilDateTime (n.fdiv 1000)).year ≤ 9999 ∧
                9999 < (civilDateTime (n.fdiv 1000 + IST_OFFSET_SECONDS)).year := by
              rw [decide_eq_true hn, decide_eq_false hB] at h
              simp only [Bool.true_and, Bool.false_or, Bool.and_eq_true,
                decide_eq_true_eq] at h
              tauto
            exact (formatViaFromTs_overflow n).2 hC.1 hC.2.1 hC.2.2

theorem format_timestamp_total_witness :
    overflowInput (TsInput.floatVal 1000) = false ∧
    ∃ s, format_timestamp (TsInput.floatVal 1000) = Except.ok s :=
  ⟨by decide, (format_timestamp_total (TsInput.floatVal 1000)).1 (by decide)⟩

end VishNet
